import Mathlib

/-!
Shallow embedding of the volttron repository fragment:
the ecobee driver interface test double (MockEcobee in
src/services/core/MasterDriverAgent/tests/test_ecobee_driver.py),
the Tester example agent (src/examples/TestAgent/tester/agent.py) and
the TestAgent historian test agent (src/examples/TestAgent/test/test.py).

Python values are embedded as the inductive PyVal, Python exceptions as
PyExc; a method that can raise returns Except. Because a Python exception
propagates while leaving the fields the method has already written in
place, methods on the ecobee state return
Except (PyExc × EcobeeState) EcobeeState: the error also carries the
state the object has at the moment of the raise.
-/

namespace Volttron

/-- Embedding of the Python (JSON-like) values the fragment manipulates:
None, booleans, integers, strings, lists and string-keyed dicts. -/
inductive PyVal where
  | noneV : PyVal
  | bool (b : Bool) : PyVal
  | int (n : Int) : PyVal
  | str (s : String) : PyVal
  | list (xs : List PyVal) : PyVal
  | dict (d : List (String × PyVal)) : PyVal

/-- Embedding of the Python exceptions the fragment raises or handles. -/
inductive PyExc where
  | HTTPError (msg : String)
  | AttributeError (name : String)
  | TypeError (msg : String)
  | ValueError (msg : String)
deriving DecidableEq, Repr

/-- The REMOTE_RESPONSE constant of test_ecobee_driver.py: the canned
payload the mocked vendor API returns. -/
def REMOTE_RESPONSE : PyVal :=
  .dict [("thermostatList", .list [
    .dict [
      ("identifier", .int 8675309),
      ("settings", .dict [("setting1", .int 0), ("setting2", .int 1)]),
      ("runtime", .dict [("hold1", .int 0), ("hold2", .int 1)]),
      ("events", .list [
        .dict [("test1", .str "test1"), ("type", .str "program")],
        .dict [("test2", .str "test2"), ("type", .str "vacation")]]),
      ("equipmentStatus", .str "testEquip1,testEquip3")
    ]])]

/-- One entry of the response cache: the timestamp of the request and the
response stored with it. Wall-clock time is embedded as Nat; the methods
that read the clock take the current time as an argument. -/
structure CacheEntry where
  request_timestamp : Nat
  request_response : PyVal

/-- Lookup in the flat response cache (a Python dict keyed by URL,
embedded as an association list with at most one entry per key). -/
def cacheGet (cache : List (String × CacheEntry)) (url : String) : Option CacheEntry :=
  match cache with
  | [] => none
  | (k, v) :: rest => if k = url then some v else cacheGet rest url

/-- Update of the flat response cache: dict.update with a single key,
replacing the entry for the key when present, appending otherwise. -/
def cacheUpdate (cache : List (String × CacheEntry)) (url : String) (e : CacheEntry) :
    List (String × CacheEntry) :=
  match cache with
  | [] => [(url, e)]
  | (k, v) :: rest => if k = url then (url, e) :: rest else (k, v) :: cacheUpdate rest url e

/-- The mutable fields of a MockEcobee object (test_ecobee_driver.py,
MockEcobee.__init__, plus the fields the parent Interface and the tests
assign: authorization_stage, the response cache, thermostat_data and
ecobee_data). -/
structure EcobeeState where
  auth_config_stored : Bool
  authorization_code : Bool
  access_token : Bool
  refresh_token : Bool
  refresh_state : Bool
  poll_greenlet_thermostats : String
  authorization_stage : String
  cache : List (String × CacheEntry)
  thermostat_data : Option PyVal
  ecobee_data : Option PyVal

/-- MockEcobee.__init__: every token flag starts False and nothing is
stored. The parent Interface constructor is not under src/, so the
initial authorization_stage it assigns is kept as a parameter; the cache
starts empty and no thermostat data is held. -/
def initMockEcobee (stage0 : String) : EcobeeState :=
  { auth_config_stored := false
    authorization_code := false
    access_token := false
    refresh_token := false
    refresh_state := false
    poll_greenlet_thermostats := "test"
    authorization_stage := stage0
    cache := []
    thermostat_data := none
    ecobee_data := none }

/-- The dict MockEcobee.get_auth_config_from_store returns once a config
is stored: AUTH_CODE, ACCESS_TOKEN and REFRESH_TOKEN entries. -/
structure AuthConfig where
  AUTH_CODE : Bool
  ACCESS_TOKEN : Bool
  REFRESH_TOKEN : Bool
deriving DecidableEq, Repr

/-- MockEcobee.get_auth_config_from_store: None until update_auth_config
has run, afterwards the dict of the three live token fields. -/
def get_auth_config_from_store (s : EcobeeState) : Option AuthConfig :=
  if s.auth_config_stored = false then
    none
  else
    some { AUTH_CODE := s.authorization_code
           ACCESS_TOKEN := s.access_token
           REFRESH_TOKEN := s.refresh_token }

/-- MockEcobee.update_auth_config: records that the auth config blob has
been written to the store. -/
def update_auth_config (s : EcobeeState) : EcobeeState :=
  { s with auth_config_stored := true }

/-- MockEcobee.authorize_application: obtains an authorization code and
moves the handshake to REQUEST_TOKENS. -/
def authorize_application (s : EcobeeState) : EcobeeState :=
  { s with authorization_code := true, authorization_stage := "REQUEST_TOKENS" }

/-- MockEcobee.request_tokens: with a truthy authorization code it grants
both tokens and moves the handshake to AUTHORIZED; otherwise it raises
HTTPError without touching any field. -/
def request_tokens (s : EcobeeState) : Except (PyExc × EcobeeState) EcobeeState :=
  if s.authorization_code then
    .ok { s with refresh_token := true, access_token := true,
                 authorization_stage := "AUTHORIZED" }
  else
    .error (.HTTPError "Not authorized to request tokens", s)

/-- MockEcobee.refresh_tokens: with a truthy refresh token it grants both
tokens and moves the handshake to AUTHORIZED; otherwise it raises
HTTPError without touching any field. -/
def refresh_tokens (s : EcobeeState) : Except (PyExc × EcobeeState) EcobeeState :=
  if s.refresh_token then
    .ok { s with refresh_token := true, access_token := true,
                 authorization_stage := "AUTHORIZED" }
  else
    .error (.HTTPError "Not authorized to refresh tokens", s)

/-- Modelled from the spec: update_authorization belongs to
ecobee.Interface, which is not under src/ (only its tests and the
MockEcobee subclass are). The spec describes a three-state authorization
handshake, REQUEST_TOKENS → AUTHORIZED via request_tokens and
REFRESH_TOKENS → AUTHORIZED via refresh_tokens, and the tests exercise
update_authorization as exactly this dispatch on authorization_stage;
from any other stage nothing is attempted. -/
def update_authorization (s : EcobeeState) : Except (PyExc × EcobeeState) EcobeeState :=
  if s.authorization_stage = "REQUEST_TOKENS" then
    request_tokens s
  else if s.authorization_stage = "REFRESH_TOKENS" then
    refresh_tokens s
  else
    .ok s

/-- MockEcobee.get_data_remote: when the handshake is not AUTHORIZED or
the access token is falsy it first runs update_authorization; then, if
the handshake is AUTHORIZED with a truthy access token, it returns the
canned remote response, and otherwise raises HTTPError. -/
def get_data_remote (s : EcobeeState) : Except (PyExc × EcobeeState) (EcobeeState × PyVal) :=
  match (if s.authorization_stage ≠ "AUTHORIZED" ∨ s.access_token = false then
           update_authorization s
         else .ok s) with
  | .error e => .error e
  | .ok s1 =>
    if s1.authorization_stage = "AUTHORIZED" ∧ s1.access_token = true then
      .ok (s1, REMOTE_RESPONSE)
    else
      .error (.HTTPError "Failed to get remote Ecobee data", s1)

/-- The thermostat endpoint URL the tests read the cache at. -/
def THERMOSTAT_URL : String := "https://api.ecobee.com/1/thermostat"

/-- Modelled from the spec: the cache refresh interval of the driver
(ecobee.Interface is not under src/). The spec fixes only that the cache
is timestamp-gated; the concrete number of seconds is immaterial to the
claims, which carry freshness as a hypothesis. -/
def CACHE_UPDATE_FREQUENCY : Nat := 180

/-- Modelled from the spec: the timestamp-gated lookup of the
single-entry-per-URL response cache (ecobee.Interface is not under
src/). A cached response is returned only while the entry is fresh, that
is while less than update_frequency time has passed since its
request_timestamp. -/
def get_data_cache (s : EcobeeState) (url : String) (update_frequency now : Nat) :
    Option PyVal :=
  match cacheGet s.cache url with
  | none => none
  | some e =>
    if now - e.request_timestamp < update_frequency then
      some e.request_response
    else
      none

/-- Modelled from the spec: storing a remote response in the flat cache
keyed by URL together with the request timestamp (ecobee.Interface is
not under src/). -/
def store_remote_data (s : EcobeeState) (url : String) (response : PyVal) (now : Nat) :
    EcobeeState :=
  { s with cache := cacheUpdate s.cache url ⟨now, response⟩ }

/-- Modelled from the spec: the cache-then-remote read path of the driver
(ecobee.Interface is not under src/). A fresh cached response is
returned as is; otherwise the data is fetched through get_data_remote
and stored in the cache with the current timestamp. -/
def get_ecobee_data (s : EcobeeState) (url : String) (update_frequency now : Nat) :
    Except (PyExc × EcobeeState) (EcobeeState × PyVal) :=
  match get_data_cache s url update_frequency now with
  | some cached => .ok (s, cached)
  | none =>
    match get_data_remote s with
    | .error e => .error e
    | .ok (s1, response) => .ok (store_remote_data s1 url response now, response)

/-- Modelled from the spec: get_thermostat_data of the driver
(ecobee.Interface is not under src/): it reads the thermostat endpoint
through the cache-then-remote path and stores the response in
thermostat_data; on an exception nothing is written. -/
def get_thermostat_data (s : EcobeeState) (now : Nat) :
    Except (PyExc × EcobeeState) EcobeeState :=
  match get_ecobee_data s THERMOSTAT_URL CACHE_UPDATE_FREQUENCY now with
  | .error e => .error e
  | .ok (s1, response) => .ok { s1 with thermostat_data := some response }

/-- Lookup of a Python object attribute (or of a key in a string-keyed
dict) in an attribute dictionary, embedded as an association list. -/
def lookupAttr (attrs : List (String × PyVal)) (name : String) : Option PyVal :=
  match attrs with
  | [] => none
  | (k, v) :: rest => if k = name then some v else lookupAttr rest name

/-- Assignment of a Python object attribute (or of a key in a
string-keyed dict): replaces the binding when the name is present,
appends it otherwise. -/
def setAttr (attrs : List (String × PyVal)) (name : String) (v : PyVal) :
    List (String × PyVal) :=
  match attrs with
  | [] => [(name, v)]
  | (k, w) :: rest =>
    if k = name then (name, v) :: rest else (k, w) :: setAttr rest name v

/-- Python dict.update over the embedded association lists: every binding
of overrides is written into d in order. -/
def dictUpdate (d overrides : List (String × PyVal)) : List (String × PyVal) :=
  overrides.foldl (fun acc kv => setAttr acc kv.1 kv.2) d

/-- A Tester object (src/examples/TestAgent/tester/agent.py) embedded as
its dynamic attribute dictionary; the host-runtime plumbing (self.vip,
self.core) is outside the embedding. -/
structure Tester where
  attrs : List (String × PyVal)

/-- Tester.__init__ (agent.py lines 48-59): assigns historian_vip,
output_path and default_config; the set_default and subscribe calls on
self.vip.config touch the host runtime, not the attribute dictionary. -/
def Tester.mkInit (historian_vip output_path : String) : Tester :=
  { attrs := [
      ("historian_vip", .str historian_vip),
      ("output_path", .str output_path),
      ("default_config", .dict [
        ("historian_vip", .str historian_vip),
        ("output", .str output_path)])] }

/-- The merged config dict Tester.configure builds: a copy of the stored
default_config updated with the new contents. -/
def Tester.mergedConfig (t : Tester) (contents : List (String × PyVal)) :
    List (String × PyVal) :=
  match lookupAttr t.attrs "default_config" with
  | some (.dict d) => dictUpdate d contents
  | _ => contents

/-- Tester.configure (agent.py lines 68-88): merges the stored
default_config with the new contents and assigns historian_vip and
output_path from the merged dict; when a key is missing nothing is
assigned (in Python the lookup would raise, reaching neither
assignment statement). -/
def Tester.configure (t : Tester) (contents : List (String × PyVal)) : Tester :=
  match lookupAttr (t.mergedConfig contents) "historian_vip",
        lookupAttr (t.mergedConfig contents) "output" with
  | some hv, some op =>
    { attrs := setAttr (setAttr t.attrs "historian_vip" hv) "output_path" op }
  | _, _ => t

/-- Tester.onstart (agent.py lines 90-118): performs two RPC calls and
writes their results to a file; it assigns no attribute, so on the
attribute dictionary it is the identity. -/
def Tester.onstart (t : Tester) : Tester := t

/-- Tester.onstop (agent.py lines 120-126): pass. -/
def Tester.onstop (t : Tester) : Tester := t

/-- Python attribute read self.name: the value when the attribute is
defined, AttributeError otherwise. -/
def Tester.getattr (t : Tester) (name : String) : Except PyExc PyVal :=
  match lookupAttr t.attrs name with
  | some v => .ok v
  | none => .error (.AttributeError name)

/-- Tester.rpc_method (agent.py lines 128-134): evaluates
self.setting1 + arg1 - arg2; the attribute read of setting1 happens
first, and a non-integer value of it would fail the addition. -/
def Tester.rpc_method (t : Tester) (arg1 arg2 : Int) : Except PyExc Int :=
  match t.getattr "setting1" with
  | .error e => .error e
  | .ok (.int n) => .ok (n + arg1 - arg2)
  | .ok _ => .error (.TypeError "unsupported operand type for +")

/-- The Tester states reachable through the code paths of the class: the
constructor followed by any sequence of configure (with arbitrary config
contents), onstart and onstop calls. -/
inductive TesterReachable : Tester → Prop where
  | init (hv op : String) : TesterReachable (Tester.mkInit hv op)
  | configure (t : Tester) (contents : List (String × PyVal)) :
      TesterReachable t → TesterReachable (t.configure contents)
  | onstart (t : Tester) : TesterReachable t → TesterReachable t.onstart
  | onstop (t : Tester) : TesterReachable t → TesterReachable t.onstop

/-- The effectful operations TestAgent.lookup_data
(src/examples/TestAgent/test/test.py lines 89-107) performs, as an
oracle: the outcome of each RPC call, of opening the output file and of
each write to it. Each may raise (for instance, writing a non-string
raises TypeError). -/
structure RpcEnv where
  get_topic_list : Except PyExc PyVal
  query : Except PyExc PyVal
  openOutput : Except PyExc Unit
  writeOutput : PyVal → Except PyExc Unit

/-- The statements inside the try block of TestAgent.lookup_data, in
program order: the two RPC calls, opening the output file and the four
writes; the first raise aborts the rest. -/
def lookup_data_body (env : RpcEnv) : Except PyExc Unit := do
  let topics ← env.get_topic_list
  let data ← env.query
  let _ ← env.openOutput
  let _ ← env.writeOutput (.str "TOPICS\n")
  let _ ← env.writeOutput topics
  let _ ← env.writeOutput (.str "\n\nDATA\n")
  let _ ← env.writeOutput data
  return ()

/-- What a call of TestAgent.lookup_data did: either the body completed,
or the except handler printed the caught exception. -/
inductive LookupOutcome where
  | completed : LookupOutcome
  | printedError (e : PyExc) : LookupOutcome

/-- TestAgent.lookup_data: the whole body runs inside
try/except Exception; a raise from any statement is caught by the
handler, which prints the error and returns normally. The Except error
component of the result is a propagated exception, so .ok means the
method returned normally to its caller. -/
def lookup_data (env : RpcEnv) : Except PyExc LookupOutcome :=
  match lookup_data_body env with
  | .ok _ => .ok .completed
  | .error e => .ok (.printedError e)

/-! Helper lemmas, shared by the claim proofs. -/

/-- Updating the cache at a URL makes the lookup at that URL return
exactly the stored entry. -/
theorem cacheGet_cacheUpdate_self (c : List (String × CacheEntry)) (url : String)
    (e : CacheEntry) : cacheGet (cacheUpdate c url e) url = some e := by
  induction c with
  | nil => simp [cacheUpdate, cacheGet]
  | cons kv rest ih =>
    obtain ⟨k, v⟩ := kv
    by_cases h : k = url
    · simp [cacheUpdate, cacheGet, h]
    · simp [cacheUpdate, cacheGet, h, ih]

/-- Assigning one attribute leaves the lookup of any other name
unchanged. -/
theorem lookupAttr_setAttr_ne (attrs : List (String × PyVal)) (k name : String)
    (v : PyVal) (h : k ≠ name) :
    lookupAttr (setAttr attrs k v) name = lookupAttr attrs name := by
  induction attrs with
  | nil => simp [setAttr, lookupAttr, h]
  | cons kv rest ih =>
    obtain ⟨k2, w⟩ := kv
    by_cases h2 : k2 = k
    · subst h2
      simp [setAttr, lookupAttr, h]
    · by_cases h3 : k2 = name
      · simp [setAttr, lookupAttr, h2, h3, Ne.symm h]
      · simp [setAttr, lookupAttr, h2, h3, ih]

/-- No reachable Tester state defines the attribute setting1: the
constructor does not write it and configure writes only historian_vip
and output_path. -/
theorem tester_no_setting1 (t : Tester) (h : TesterReachable t) :
    lookupAttr t.attrs "setting1" = none := by
  induction h with
  | init hv op => simp [Tester.mkInit, lookupAttr]
  | configure t contents ht ih =>
    cases hhv : lookupAttr (t.mergedConfig contents) "historian_vip" with
    | none =>
      simpa [Tester.configure, hhv] using ih
    | some hv =>
      cases hop : lookupAttr (t.mergedConfig contents) "output" with
      | none => simpa [Tester.configure, hhv, hop] using ih
      | some op =>
        simp [Tester.configure, hhv, hop]
        rw [lookupAttr_setAttr_ne _ _ _ _ (by decide),
            lookupAttr_setAttr_ne _ _ _ _ (by decide)]
        exact ih
  | onstart t ht ih => exact ih
  | onstop t ht ih => exact ih

/-! Claim theorems. -/

/-- C9: round-trip of the stored auth config. In the initial MockEcobee
state get_auth_config_from_store returns None; after any call to
update_auth_config it returns the dict whose AUTH_CODE, ACCESS_TOKEN and
REFRESH_TOKEN entries equal the current authorization_code, access_token
and refresh_token fields. -/
theorem C9_auth_config_round_trip :
    (∀ stage0 : String, get_auth_config_from_store (initMockEcobee stage0) = none) ∧
    (∀ s : EcobeeState,
      get_auth_config_from_store (update_auth_config s) =
        some { AUTH_CODE := (update_auth_config s).authorization_code,
               ACCESS_TOKEN := (update_auth_config s).access_token,
               REFRESH_TOKEN := (update_auth_config s).refresh_token }) := by
  constructor
  · intro stage0
    rfl
  · intro s
    rfl

/-- C4: in state REQUEST_TOKENS with a falsy authorization_code,
update_authorization raises HTTPError with the message
Not authorized to request tokens; the error carries the state s itself,
so authorization_code, refresh_token and access_token are unchanged. -/
theorem C4_request_tokens_bad_auth_code (s : EcobeeState)
    (hstage : s.authorization_stage = "REQUEST_TOKENS")
    (hcode : s.authorization_code = false) :
    update_authorization s = .error (.HTTPError "Not authorized to request tokens", s) := by
  simp [update_authorization, request_tokens, hstage, hcode]

/-- Witness for C4 at the freshly constructed MockEcobee placed in stage
REQUEST_TOKENS, whose token fields are all False. -/
theorem C4_request_tokens_bad_auth_code_witness :
    update_authorization (initMockEcobee "REQUEST_TOKENS") =
      .error (.HTTPError "Not authorized to request tokens",
              initMockEcobee "REQUEST_TOKENS") :=
  C4_request_tokens_bad_auth_code (initMockEcobee "REQUEST_TOKENS") rfl rfl

/-- C5: in state REFRESH_TOKENS success depends only on the refresh
token. With a truthy refresh_token, update_authorization succeeds and
sets access_token to True whatever authorization_code holds (the state s
is arbitrary); with a falsy refresh_token it raises HTTPError with the
message Not authorized to refresh tokens and the error carries s itself,
leaving every field unchanged. -/
theorem C5_refresh_depends_only_on_refresh_token (s : EcobeeState)
    (hstage : s.authorization_stage = "REFRESH_TOKENS") :
    (s.refresh_token = true →
      update_authorization s =
        .ok { s with refresh_token := true, access_token := true,
                     authorization_stage := "AUTHORIZED" }) ∧
    (s.refresh_token = false →
      update_authorization s =
        .error (.HTTPError "Not authorized to refresh tokens", s)) := by
  constructor
  · intro h
    simp [update_authorization, refresh_tokens, hstage, h]
  · intro h
    simp [update_authorization, refresh_tokens, hstage, h]

/-- Witness for C5: success with a truthy refresh token and a falsy
authorization code, failure with a falsy refresh token. -/
theorem C5_refresh_depends_only_on_refresh_token_witness :
    update_authorization
        { initMockEcobee "REFRESH_TOKENS" with refresh_token := true } =
      .ok { initMockEcobee "REFRESH_TOKENS" with
            refresh_token := true,
            access_token := true,
            authorization_stage := "AUTHORIZED" } ∧
    update_authorization (initMockEcobee "REFRESH_TOKENS") =
      .error (.HTTPError "Not authorized to refresh tokens",
              initMockEcobee "REFRESH_TOKENS") :=
  ⟨(C5_refresh_depends_only_on_refresh_token _ rfl).1 rfl,
   (C5_refresh_depends_only_on_refresh_token _ rfl).2 rfl⟩

/-- C1: the three-state handshake. From REQUEST_TOKENS a successful
update_authorization (request_tokens, which needs a truthy
authorization_code) reaches AUTHORIZED with both tokens set to True;
from REFRESH_TOKENS a successful update_authorization (refresh_tokens,
which needs a truthy refresh_token) reaches AUTHORIZED with access_token
True; and a successful update_authorization that ends in AUTHORIZED
started in REQUEST_TOKENS, in REFRESH_TOKENS, or already in AUTHORIZED,
while authorize_application never reaches AUTHORIZED. -/
theorem C1_three_state_handshake :
    (∀ s : EcobeeState, s.authorization_stage = "REQUEST_TOKENS" →
      s.authorization_code = true →
      update_authorization s =
        .ok { s with refresh_token := true, access_token := true,
                     authorization_stage := "AUTHORIZED" }) ∧
    (∀ s : EcobeeState, s.authorization_stage = "REQUEST_TOKENS" →
      s.authorization_code = false →
      ∃ e, update_authorization s = .error e) ∧
    (∀ s : EcobeeState, s.authorization_stage = "REFRESH_TOKENS" →
      s.refresh_token = true →
      update_authorization s =
        .ok { s with refresh_token := true, access_token := true,
                     authorization_stage := "AUTHORIZED" }) ∧
    (∀ s : EcobeeState, s.authorization_stage = "REFRESH_TOKENS" →
      s.refresh_token = false →
      ∃ e, update_authorization s = .error e) ∧
    (∀ s s2 : EcobeeState, update_authorization s = .ok s2 →
      s2.authorization_stage = "AUTHORIZED" →
      s.authorization_stage = "REQUEST_TOKENS" ∨
      s.authorization_stage = "REFRESH_TOKENS" ∨
      s.authorization_stage = "AUTHORIZED") ∧
    (∀ s : EcobeeState, (authorize_application s).authorization_stage ≠ "AUTHORIZED") := by
  refine ⟨?_, ?_, ?_, ?_, ?_, ?_⟩
  · intro s hstage hcode
    simp [update_authorization, request_tokens, hstage, hcode]
  · intro s hstage hcode
    exact ⟨(.HTTPError "Not authorized to request tokens", s),
      by simp [update_authorization, request_tokens, hstage, hcode]⟩
  · intro s hstage hrt
    simp [update_authorization, refresh_tokens, hstage, hrt]
  · intro s hstage hrt
    exact ⟨(.HTTPError "Not authorized to refresh tokens", s),
      by simp [update_authorization, refresh_tokens, hstage, hrt]⟩
  · intro s s2 hok hauth
    by_cases h1 : s.authorization_stage = "REQUEST_TOKENS"
    · exact Or.inl h1
    · by_cases h2 : s.authorization_stage = "REFRESH_TOKENS"
      · exact Or.inr (Or.inl h2)
      · refine Or.inr (Or.inr ?_)
        simp [update_authorization, h1, h2] at hok
        rw [← hok] at hauth
        exact hauth
  · intro s
    simp [authorize_application]

/-- Witness for C1: from the fresh MockEcobee in stage REQUEST_TOKENS
with a truthy authorization code, update_authorization reaches
AUTHORIZED with both tokens True. -/
theorem C1_three_state_handshake_witness :
    update_authorization
        { initMockEcobee "REQUEST_TOKENS" with authorization_code := true } =
      .ok { initMockEcobee "REQUEST_TOKENS" with
            authorization_code := true,
            refresh_token := true,
            access_token := true,
            authorization_stage := "AUTHORIZED" } :=
  C1_three_state_handshake.1 _ rfl rfl

/-- C2: get_data_remote makes at most one reauthorization attempt. When
the state is already AUTHORIZED with a truthy access token it returns
the remote response directly; otherwise its outcome is fully determined
by the one call to update_authorization: success into an authorized
state returns the remote response, success into an unauthorized state
raises HTTPError with no second retry, and a raise from
update_authorization propagates. -/
theorem C2_at_most_one_reauthorization (s : EcobeeState) :
    (s.authorization_stage = "AUTHORIZED" ∧ s.access_token = true →
      get_data_remote s = .ok (s, REMOTE_RESPONSE)) ∧
    (¬(s.authorization_stage = "AUTHORIZED" ∧ s.access_token = true) →
      (∀ s1, update_authorization s = .ok s1 →
        (s1.authorization_stage = "AUTHORIZED" ∧ s1.access_token = true →
          get_data_remote s = .ok (s1, REMOTE_RESPONSE)) ∧
        (¬(s1.authorization_stage = "AUTHORIZED" ∧ s1.access_token = true) →
          get_data_remote s =
            .error (.HTTPError "Failed to get remote Ecobee data", s1))) ∧
      (∀ e, update_authorization s = .error e → get_data_remote s = .error e)) := by
  constructor
  · rintro ⟨h1, h2⟩
    simp [get_data_remote, h1, h2]
  · intro hna
    have hcond : s.authorization_stage ≠ "AUTHORIZED" ∨ s.access_token = false := by
      by_cases hA : s.authorization_stage = "AUTHORIZED"
      · cases hb : s.access_token with
        | false => exact Or.inr rfl
        | true => exact absurd ⟨hA, hb⟩ hna
      · exact Or.inl hA
    constructor
    · intro s1 hok
      constructor
      · rintro ⟨h1, h2⟩
        simp [get_data_remote, hcond, hok, h1, h2]
      · intro hna1
        simp [get_data_remote, hcond, hok, hna1]
    · intro e herr
      simp [get_data_remote, hcond, herr]

/-- Witness for C2: on the fresh MockEcobee placed in AUTHORIZED with a
truthy access token, get_data_remote returns the canned remote response
with no reauthorization, and on the fresh MockEcobee in stage
REQUEST_TOKENS the single failed update_authorization call makes it
propagate that HTTPError. -/
theorem C2_at_most_one_reauthorization_witness :
    get_data_remote { initMockEcobee "AUTHORIZED" with access_token := true } =
      .ok ({ initMockEcobee "AUTHORIZED" with access_token := true },
           REMOTE_RESPONSE) ∧
    get_data_remote (initMockEcobee "REQUEST_TOKENS") =
      .error (.HTTPError "Not authorized to request tokens",
              initMockEcobee "REQUEST_TOKENS") :=
  ⟨(C2_at_most_one_reauthorization _).1 ⟨rfl, rfl⟩,
   ((C2_at_most_one_reauthorization _).2 (by simp [initMockEcobee])).2
     (.HTTPError "Not authorized to request tokens", initMockEcobee "REQUEST_TOKENS")
     (by simp [update_authorization, request_tokens, initMockEcobee])⟩

/-- C6: with all three token fields falsy and no cached entry for the
thermostat URL, get_thermostat_data raises HTTPError; the error carries
the state s itself, so nothing was partially updated and ecobee_data is
still None. -/
theorem C6_no_auth_raises_and_preserves_state (s : EcobeeState) (now : Nat)
    (hcode : s.authorization_code = false)
    (hrt : s.refresh_token = false)
    (hat : s.access_token = false)
    (hcache : cacheGet s.cache THERMOSTAT_URL = none)
    (hdata : s.ecobee_data = none) :
    ∃ msg, get_thermostat_data s now = .error (.HTTPError msg, s) ∧
      s.ecobee_data = none := by
  have hgdc : get_data_cache s THERMOSTAT_URL CACHE_UPDATE_FREQUENCY now = none := by
    simp [get_data_cache, hcache]
  have hcond : s.authorization_stage ≠ "AUTHORIZED" ∨ s.access_token = false :=
    Or.inr hat
  by_cases h1 : s.authorization_stage = "REQUEST_TOKENS"
  · refine ⟨"Not authorized to request tokens", ?_, hdata⟩
    simp [get_thermostat_data, get_ecobee_data, hgdc, get_data_remote, hcond,
          update_authorization, request_tokens, h1, hcode]
  · by_cases h2 : s.authorization_stage = "REFRESH_TOKENS"
    · refine ⟨"Not authorized to refresh tokens", ?_, hdata⟩
      simp [get_thermostat_data, get_ecobee_data, hgdc, get_data_remote, hcond,
            update_authorization, refresh_tokens, h1, h2, hrt]
    · refine ⟨"Failed to get remote Ecobee data", ?_, hdata⟩
      simp [get_thermostat_data, get_ecobee_data, hgdc, get_data_remote, hcond,
            update_authorization, h1, h2, hat]

/-- Witness for C6 at the fresh MockEcobee left in stage AUTHORIZED, all
token fields False and an empty cache. -/
theorem C6_no_auth_raises_and_preserves_state_witness :
    ∃ msg, get_thermostat_data (initMockEcobee "AUTHORIZED") 5 =
      .error (.HTTPError msg, initMockEcobee "AUTHORIZED") ∧
      (initMockEcobee "AUTHORIZED").ecobee_data = none :=
  C6_no_auth_raises_and_preserves_state (initMockEcobee "AUTHORIZED") 5
    rfl rfl rfl rfl rfl

/-- C3: the response cache is a flat map keyed by request URL holding the
last response with its request_timestamp. While the entry for the
thermostat URL is fresh, get_thermostat_data returns the cached response
and the resulting state keeps the cache of s unchanged, so the entry and
its request_timestamp are untouched; once the entry is removed, a call
fetches remotely and stores an entry timestamped with the current clock
value, strictly greater than any earlier timestamp the removed entry
carried. -/
theorem C3_cache_is_timestamp_gated (s : EcobeeState) (now : Nat) :
    (∀ e : CacheEntry, cacheGet s.cache THERMOSTAT_URL = some e →
      now - e.request_timestamp < CACHE_UPDATE_FREQUENCY →
      get_thermostat_data s now =
        .ok { s with thermostat_data := some e.request_response }) ∧
    (∀ (s1 : EcobeeState) (r : PyVal) (tsPrev : Nat),
      cacheGet s.cache THERMOSTAT_URL = none →
      get_data_remote s = .ok (s1, r) →
      tsPrev < now →
      ∃ s2 e2, get_thermostat_data s now = .ok s2 ∧
        s2.thermostat_data = some r ∧
        cacheGet s2.cache THERMOSTAT_URL = some e2 ∧
        e2.request_timestamp = now ∧
        e2.request_response = r ∧
        tsPrev < e2.request_timestamp) := by
  constructor
  · intro e hc hf
    have hgdc : get_data_cache s THERMOSTAT_URL CACHE_UPDATE_FREQUENCY now =
        some e.request_response := by
      simp [get_data_cache, hc, hf]
    simp [get_thermostat_data, get_ecobee_data, hgdc]
  · intro s1 r tsPrev hc hr hts
    have hgdc : get_data_cache s THERMOSTAT_URL CACHE_UPDATE_FREQUENCY now = none := by
      simp [get_data_cache, hc]
    refine ⟨{ store_remote_data s1 THERMOSTAT_URL r now with thermostat_data := some r },
            ⟨now, r⟩, ?_, rfl, ?_, rfl, rfl, hts⟩
    · simp [get_thermostat_data, get_ecobee_data, hgdc, hr]
    · simp [store_remote_data, cacheGet_cacheUpdate_self]

/-- Witness for C3, fresh-entry side: with the cache holding an entry
for the thermostat URL stamped at time 0 and the clock still at 0, the
call returns the cached payload and leaves the state otherwise as it
was, the cache included. -/
theorem C3_cache_is_timestamp_gated_witness :
    get_thermostat_data
        { initMockEcobee "AUTHORIZED" with
          cache := [(THERMOSTAT_URL, ⟨0, .str "cached"⟩)] } 0 =
      .ok { initMockEcobee "AUTHORIZED" with
            cache := [(THERMOSTAT_URL, ⟨0, .str "cached"⟩)],
            thermostat_data := some (.str "cached") } :=
  (C3_cache_is_timestamp_gated _ 0).1 ⟨0, .str "cached"⟩ rfl (by decide)

/-- C7: on every Tester state reachable through the code paths of the
class, rpc_method raises AttributeError for any pair of arguments: its
body reads self.setting1 first, and no code path ever defines a
setting1 attribute. -/
theorem C7_rpc_method_raises_attribute_error (t : Tester) (h : TesterReachable t)
    (arg1 arg2 : Int) :
    t.rpc_method arg1 arg2 = .error (.AttributeError "setting1") := by
  have hs : lookupAttr t.attrs "setting1" = none := tester_no_setting1 t h
  simp [Tester.rpc_method, Tester.getattr, hs]

/-- Witness for C7 at the Tester built with the default constructor
arguments and the arguments 3 and 5. -/
theorem C7_rpc_method_raises_attribute_error_witness :
    (Tester.mkInit "platform.historian" "historian_output").rpc_method 3 5 =
      .error (.AttributeError "setting1") :=
  C7_rpc_method_raises_attribute_error _
    (TesterReachable.init "platform.historian" "historian_output") 3 5

/-- C8: TestAgent.lookup_data never propagates an exception: whatever
the RPC calls and file writes do, the method returns normally, and when
the body raises, the handler returns having printed exactly that
exception. -/
theorem C8_lookup_data_never_propagates (env : RpcEnv) :
    (∃ o, lookup_data env = .ok o) ∧
    (∀ e, lookup_data_body env = .error e →
      lookup_data env = .ok (.printedError e)) := by
  constructor
  · cases h : lookup_data_body env with
    | ok u => exact ⟨.completed, by simp [lookup_data, h]⟩
    | error e => exact ⟨.printedError e, by simp [lookup_data, h]⟩
  · intro e he
    simp [lookup_data, he]

/-- Witness for C8 with an environment whose first RPC call raises: the
method still returns normally, reporting the printed exception. -/
theorem C8_lookup_data_never_propagates_witness :
    lookup_data { get_topic_list := .error (.HTTPError "Connection refused"),
                  query := .ok .noneV,
                  openOutput := .ok (),
                  writeOutput := fun _ => .ok () } =
      .ok (.printedError (.HTTPError "Connection refused")) :=
  (C8_lookup_data_never_propagates _).2 _ rfl

end Volttron
